import Mathlib

/-!
# Review extraction and relevance-ranking pipeline: a shallow embedding

This file embeds the core of the review-scraper repository in Lean 4:

* `src/utils/review_analyzer.py` — sentiment analysis, category tagging,
  keyword-relevance scoring, review filtering/sorting, and insight
  aggregation (`ReviewAnalyzer`, `ReviewFilter`);
* `src/scrapers/universal_scraper.py` — the per-container field-extraction
  loop of `UniversalScraper.scrape_reviews` (`ScrapeConfig`).

Modelling conventions:

* Python `str` is modelled as `List Char` (`Str`).  Case mapping
  (`str.lower`) and character classes (`\w`, `str.split` whitespace) are
  modelled on their ASCII fragment via `Char.toLower`, `Char.isAlphanum`.
* Python `float` is modelled as `ℚ` with exact arithmetic; numeric literals
  such as `0.1` denote the corresponding rational.
* Python `int` is modelled as `ℤ`; slicing `l[:n]` is `pySliceTo`, including
  Python's negative-stop semantics.
* `sorted(key=k, reverse=True)` — a stable descending sort — is modelled by
  insertion sort with the relation `descRel k` (`pySortedByDesc`), which is
  extensionally the unique stable descending sort.
* Python dictionaries returned by `get_review_insights` are modelled as
  association lists `List (Str × IVal)` so that the presence or absence of a
  key is observable.
* The DOM layer (`BeautifulSoup`) is an external collaborator: a parsed page
  is modelled as the list of review containers matched by
  `config.review_container`, each container carrying the results of the four
  scoped `select_one` sub-queries (`Container`), with the `get_text` /
  attribute accessors the code reads (`Elem`).
-/

abbrev Str : Type := List Char

/-- Python truthiness/`or` on strings: `a or b` yields `a` when `a` is non-empty. -/
def pyOr (a b : Str) : Str :=
  if a = [] then b else a

/-- Python slicing `l[:n]` for an arbitrary integer stop `n`:
for `n ≥ 0` it is `take n`; for `n < 0` it keeps all but the last `-n` elements. -/
def pySliceTo (l : List α) (n : ℤ) : List α :=
  if 0 ≤ n then l.take n.toNat else l.take (l.length - (-n).toNat)

/-- Python `str.split()` whitespace (ASCII fragment). -/
def isPySpace (c : Char) : Bool :=
  c = ' ' || c = '\t' || c = '\n' || c = '\r' || c = '\x0b' || c = '\x0c'

/-- A regex `\w` word character (ASCII fragment): alphanumeric or underscore. -/
def isWordChar (c : Char) : Bool :=
  c.isAlphanum || c = '_'

/-- Accumulator for `pySplit`; `cur` holds the current chunk reversed. -/
def pySplitAux (cur : Str) : Str → List Str
  | [] => if cur = [] then [] else [cur.reverse]
  | c :: rest =>
    if isPySpace c then
      if cur = [] then pySplitAux [] rest else cur.reverse :: pySplitAux [] rest
    else pySplitAux (c :: cur) rest

/-- Python `text.split()`: maximal runs of non-whitespace characters. -/
def pySplit (t : Str) : List Str :=
  pySplitAux [] t

/-- Accumulator for `wordTokens`; `cur` holds the current token reversed. -/
def wordTokensAux (cur : Str) : Str → List Str
  | [] => if cur = [] then [] else [cur.reverse]
  | c :: rest =>
    if isWordChar c then wordTokensAux (c :: cur) rest
    else if cur = [] then wordTokensAux [] rest
    else cur.reverse :: wordTokensAux [] rest

/-- `re.findall(r'\b\w+\b', t)`: the maximal runs of word characters of `t`. -/
def wordTokens (t : Str) : List Str :=
  wordTokensAux [] t

/-- Auxiliary for `pyCount`: non-overlapping left-to-right occurrence count of
a (non-empty) `needle`, advancing past each match as `str.count` does.  The
fuel argument bounds the number of scan steps; every step shortens the
remaining text, so fuel equal to its length is enough. -/
def pyCountAux (needle : Str) : Str → ℕ → ℕ
  | _, 0 => 0
  | [], _ + 1 => 0
  | c :: rest, fuel + 1 =>
    if needle.isPrefixOf (c :: rest) then
      1 + pyCountAux needle (rest.drop (needle.length - 1)) fuel
    else pyCountAux needle rest fuel

/-- Python `hay.count(needle)`: non-overlapping substring occurrences
(`len + 1` for the empty needle, as in CPython). -/
def pyCount (hay needle : Str) : ℕ :=
  if needle = [] then hay.length + 1 else pyCountAux needle hay hay.length

/-- Python `needle in hay` substring membership. -/
def strContains : Str → Str → Bool
  | [], needle => needle.isEmpty
  | c :: rest, needle => needle.isPrefixOf (c :: rest) || strContains rest needle

/-- Is position `i` of `t` occupied by a word character? (out of range: no). -/
def wordAt (t : Str) (i : ℕ) : Bool :=
  match t.get? i with
  | some c => isWordChar c
  | none => false

/-- Does `\b` match between positions `i-1` and `i` of `t`?  Exactly one side
is a word character (the edges of the string count as non-word). -/
def boundaryAt (t : Str) (i : ℕ) : Bool :=
  (decide (i ≠ 0) && wordAt t (i - 1)) != wordAt t i

/-- Does the literal `kw` occur at position `i` of `t`? -/
def occursAt (t kw : Str) (i : ℕ) : Bool :=
  decide ((t.drop i).take kw.length = kw)

/-- Does the regex `\b kw \b` (with `kw` a `re.escape`d literal) match at
position `i` of `t`? -/
def regexAt (t kw : Str) (i : ℕ) : Bool :=
  occursAt t kw i && boundaryAt t i && boundaryAt t (i + kw.length)

/-- Scan of `re.findall`: from position `i`, count non-overlapping matches,
advancing past each match (and by one character after a zero-width match).
The fuel argument bounds the number of scan steps. -/
def reCountAux (t kw : Str) : ℕ → ℕ → ℕ
  | _, 0 => 0
  | i, fuel + 1 =>
    if i > t.length then 0
    else if regexAt t kw i then 1 + reCountAux t kw (i + max kw.length 1) fuel
    else reCountAux t kw (i + 1) fuel

/-- `len(re.findall(r'\b' + re.escape(kw) + r'\b', t))`. -/
def reCount (t kw : Str) : ℕ :=
  reCountAux t kw 0 (t.length + 1)

/-! ## Text classifier (`ReviewAnalyzer.__init__`, `analyze_sentiment`,
`categorize_review`) -/

/-- `self.criteria_keywords`: the eight fixed categories with their keyword
lists, in the source's insertion order. -/
def criteria_keywords : List (Str × List Str) :=
  [ ("assembly".toList,
      [ "assembly", "assemble", "put together", "setup", "installation",
        "install", "build", "construction", "instructions", "manual",
        "easy to assemble", "hard to assemble", "difficult assembly"
      ].map String.toList),
    ("quality".toList,
      [ "quality", "build quality", "material", "sturdy", "durable",
        "solid", "cheap", "flimsy", "well made", "construction",
        "materials", "finish", "craftsmanship"
      ].map String.toList),
    ("value".toList,
      [ "value", "price", "worth", "expensive", "cheap", "affordable",
        "money", "cost", "budget", "overpriced", "good deal",
        "bang for buck", "value for money"
      ].map String.toList),
    ("size".toList,
      [ "size", "big", "small", "large", "compact", "spacious",
        "dimensions", "fit", "space", "room", "tiny", "huge",
        "perfect size", "too big", "too small"
      ].map String.toList),
    ("comfort".toList,
      [ "comfort", "comfortable", "ergonomic", "soft", "firm",
        "cushion", "support", "padding", "cozy", "uncomfortable"
      ].map String.toList),
    ("delivery".toList,
      [ "delivery", "shipping", "arrived", "package", "packaging",
        "fast shipping", "slow delivery", "damaged", "box",
        "delivered", "received"
      ].map String.toList),
    ("customer_service".toList,
      [ "customer service", "support", "help", "response", "staff",
        "representative", "helpful", "rude", "friendly", "contact"
      ].map String.toList),
    ("durability".toList,
      [ "durability", "durable", "last", "lasting", "wear", "tear",
        "broke", "broken", "sturdy", "reliable", "falls apart"
      ].map String.toList) ]

/-- `self.positive_words`. -/
def positive_words : List Str :=
  [ "excellent", "amazing", "great", "love", "perfect", "awesome",
    "fantastic", "wonderful", "brilliant", "outstanding", "superb",
    "recommend", "happy", "satisfied", "pleased", "impressed"
  ].map String.toList

/-- `self.negative_words`. -/
def negative_words : List Str :=
  [ "terrible", "awful", "hate", "horrible", "worst", "bad",
    "disappointed", "poor", "useless", "waste", "regret",
    "broken", "defective", "faulty", "cheap", "flimsy"
  ].map String.toList

/-- `words = set(re.findall(r'\b\w+\b', text.lower()))`: the distinct word
tokens of the lowercased text. -/
def sentimentWords (text : Str) : List Str :=
  (wordTokens (text.map Char.toLower)).dedup

/-- `positive_count = len(words.intersection(self.positive_words))`. -/
def positive_count (text : Str) : ℕ :=
  ((sentimentWords text).filter (fun w => positive_words.contains w)).length

/-- `negative_count = len(words.intersection(self.negative_words))`. -/
def negative_count (text : Str) : ℕ :=
  ((sentimentWords text).filter (fun w => negative_words.contains w)).length

/-- `ReviewAnalyzer.analyze_sentiment` (review_analyzer.py lines 90-114). -/
def analyze_sentiment (text : Str) : Str :=
  if text = [] then "neutral".toList
  else if positive_count text > negative_count text then "positive".toList
  else if negative_count text > positive_count text then "negative".toList
  else "neutral".toList

/-- `ReviewAnalyzer.categorize_review` (lines 153-175): a category matches when
any of its keywords occurs as a substring of the lowercased text; each category
is reported at most once, in table order. -/
def categorize_review (text : Str) : List Str :=
  if text = [] then []
  else
    let text_lower := text.map Char.toLower
    (criteria_keywords.filter
      (fun ck => ck.2.any (fun kw => strContains text_lower (kw.map Char.toLower)))).map
      Prod.fst

/-! ## Relevance scorer (`calculate_keyword_relevance`, lines 116-151) -/

/-- The per-keyword contribution to `total_matches`:
`exact_matches * 2 + partial_matches`, where `exact_matches` counts
word-boundary regex matches and `partial_matches` is
`text_lower.count(keyword_lower) - exact_matches` (Python `int` arithmetic,
hence `ℤ`). -/
def keyword_match_score (text_lower kw : Str) : ℤ :=
  let keyword_lower := kw.map Char.toLower
  let exact_matches : ℤ := reCount text_lower keyword_lower
  let sub_matches : ℤ := pyCount text_lower keyword_lower
  exact_matches * 2 + (sub_matches - exact_matches)

/-- `total_matches` summed over all keywords. -/
def total_matches (text_lower : Str) (keywords : List Str) : ℤ :=
  (keywords.map (keyword_match_score text_lower)).sum

/-- `ReviewAnalyzer.calculate_keyword_relevance` (lines 116-151). -/
def calculate_keyword_relevance (text : Str) (keywords : List Str) : ℚ :=
  if text = [] ∨ keywords = [] then 0
  else
    let text_lower := text.map Char.toLower
    let tm := total_matches text_lower keywords
    let text_length := (pySplit text).length
    let max_possible_score := keywords.length * 2
    if text_length = 0 ∨ max_possible_score = 0 then 0
    else min ((tm : ℚ) / (max_possible_score : ℚ)) 1

/-! ## Data model: reviews, filter configuration, annotated reviews -/

/-- A scraped review record, as produced by `UniversalScraper.scrape_reviews`
(the `review_data` dict, universal_scraper.py lines 582-590). -/
structure Review where
  reviewer_name : Str := "Anonymous".toList
  rating : ℚ := 0
  review_text : Str := []
  date : Str := []
  review_url : Str := []
  source : Str := []
  platform : Str := []
deriving DecidableEq

/-- `ReviewFilter` (review_analyzer.py lines 17-26).  The `None` defaults of
`keywords`/`categories` are conflated with `[]` (the code only tests them for
truthiness and iterates them); `sentiment` keeps its `Optional[str]` type. -/
structure ReviewFilter where
  keywords : List Str := []
  categories : List Str := []
  min_rating : ℚ := 0
  max_rating : ℚ := 5
  sentiment : Option Str := none
  sort_by : Str := "relevance".toList
  limit : ℤ := 50
deriving DecidableEq

/-- Python truthiness of an `Optional[str]`: `None` and `''` are falsy. -/
def pyTruthyOptStr : Option Str → Bool
  | none => false
  | some s => !s.isEmpty

/-- An `enhanced_review`: the review dict plus the derived keys added by
`filter_reviews` (lines 207-223).  The presentation-only
`relevance_percentage` string (a formatted rendering of `keyword_relevance`)
is not modelled. -/
structure AnnotatedReview where
  base : Review
  sentiment : Str
  categories : List Str
  keyword_relevance : ℚ
deriving DecidableEq

/-! ## Review filter/ranker (`filter_reviews`, `_sort_reviews`) -/

/-- The body of the `for review in reviews` loop of `filter_reviews`
(lines 193-231): `none` when the review is skipped, `some` of the enhanced
review appended to `filtered_reviews` otherwise.

Note on lines 226-231 of the source: the category-intersection check runs
*after* the review has already been appended in the keyword branch (lines
220/224); its `continue` merely moves to the next iteration, so it never
removes anything and consequently has no counterpart in this function's
result (see claim C1). -/
def process_review (filter_config : ReviewFilter) (review : Review) :
    Option AnnotatedReview :=
  if review.rating < filter_config.min_rating ∨
      review.rating > filter_config.max_rating then none
  else if pyTruthyOptStr filter_config.sentiment = true ∧
      some (analyze_sentiment review.review_text) ≠ filter_config.sentiment then none
  else
    let sent := analyze_sentiment review.review_text
    let cats := categorize_review review.review_text
    if filter_config.keywords ≠ [] then
      let relevance := calculate_keyword_relevance review.review_text filter_config.keywords
      if relevance > (1 : ℚ) / 10 then some ⟨review, sent, cats, relevance⟩
      else none
    else some ⟨review, sent, cats, 1⟩

/-- The `filtered_reviews` list as it stands after the loop, before sorting
and truncation (the pre-sort result of `filter_reviews`). -/
def filter_pass (filter_config : ReviewFilter) (reviews : List Review) :
    List AnnotatedReview :=
  reviews.filterMap (process_review filter_config)

/-- The descending comparison induced by a sort key. -/
def descRel {α β : Type} [LinearOrder β] (key : α → β) : α → α → Prop :=
  fun x y => key y ≤ key x

/-- Decidability of `descRel`. -/
def descDecidable {α β : Type} [LinearOrder β] (key : α → β) :
    DecidableRel (descRel key) :=
  fun x y => inferInstanceAs (Decidable (key y ≤ key x))

/-- Python `sorted(l, key=key, reverse=True)`: the stable descending sort by
`key`, realised as insertion sort with `descRel key`. -/
def pySortedByDesc {α β : Type} [LinearOrder β] (key : α → β) (l : List α) :
    List α :=
  @List.insertionSort α (descRel key) (descDecidable key) l

/-- Sort key for `sort_by == 'relevance'`: `r.get('keyword_relevance', 0)`. -/
def keyRelevance (r : AnnotatedReview) : ℚ := r.keyword_relevance

/-- Sort key for `sort_by == 'rating'`: `float(r.get('rating', 0))`. -/
def keyRating (r : AnnotatedReview) : ℚ := r.base.rating

/-- Sort key for `sort_by == 'date'`: the raw date string, compared
lexicographically. -/
def keyDate (r : AnnotatedReview) : Str := r.base.date

/-- Sort key for `sort_by == 'length'`: `len(str(r.get('review_text', '')))`. -/
def keyLength (r : AnnotatedReview) : ℕ := r.base.review_text.length

/-- `ReviewAnalyzer._sort_reviews` (lines 239-250). -/
def sort_reviews (reviews : List AnnotatedReview) (sort_by : Str) :
    List AnnotatedReview :=
  if sort_by = "relevance".toList then pySortedByDesc keyRelevance reviews
  else if sort_by = "rating".toList then pySortedByDesc keyRating reviews
  else if sort_by = "date".toList then pySortedByDesc keyDate reviews
  else if sort_by = "length".toList then pySortedByDesc keyLength reviews
  else reviews

/-- `ReviewAnalyzer.filter_reviews` (lines 177-237): the loop, then
`_sort_reviews`, then truncation `[:limit]`. -/
def filter_reviews (reviews : List Review) (filter_config : ReviewFilter) :
    List AnnotatedReview :=
  if reviews = [] then []
  else
    pySliceTo (sort_reviews (filter_pass filter_config reviews) filter_config.sort_by)
      filter_config.limit

/-! ## Insight aggregator (`get_review_insights`, lines 252-291) -/

/-- Values of the insights dictionary. -/
inductive IVal where
  | nat : ℕ → IVal
  | rat : ℚ → IVal
  | counts : List (Str × ℕ) → IVal
  | cats : List Str → IVal
deriving DecidableEq

/-- Keep the first occurrence of each element (the key order of a
`collections.Counter`). -/
def firstDedup : List Str → List Str
  | [] => []
  | x :: xs => x :: (firstDedup xs).filter (fun y => y != x)

/-- `collections.Counter(l)` as an association list in first-encounter key
order. -/
def counterOf (l : List Str) : List (Str × ℕ) :=
  (firstDedup l).map (fun k => (k, l.count k))

/-- `ReviewAnalyzer.get_review_insights` (lines 252-291), with the returned
dict modelled as an association list in the key order of the source's dict
literal.  `Counter.most_common()` is the stable descending sort of
`counterOf` by count, and `most_common(5)` its first five entries. -/
def get_review_insights (reviews : List AnnotatedReview) : List (Str × IVal) :=
  if reviews = [] then []
  else
    let all_categories := (reviews.map (fun r => r.categories)).flatten
    let sentiments := reviews.map (fun r => r.sentiment)
    let ratings := reviews.map (fun r => r.base.rating)
    let category_counts := counterOf all_categories
    let sentiment_counts := counterOf sentiments
    let most_common := pySortedByDesc Prod.snd category_counts
    [ ("total_reviews".toList, IVal.nat reviews.length),
      ("average_rating".toList,
        IVal.rat (if ratings ≠ [] then ratings.sum / (ratings.length : ℚ) else 0)),
      ("category_breakdown".toList, IVal.counts most_common),
      ("sentiment_breakdown".toList, IVal.counts sentiment_counts),
      ("top_categories".toList, IVal.cats ((most_common.take 5).map Prod.fst)),
      ("rating_distribution".toList, IVal.counts
        [ ("5_star".toList, (ratings.filter (fun r => r ≥ (9 : ℚ) / 2)).length),
          ("4_star".toList,
            (ratings.filter (fun r => (7 : ℚ) / 2 ≤ r ∧ r < (9 : ℚ) / 2)).length),
          ("3_star".toList,
            (ratings.filter (fun r => (5 : ℚ) / 2 ≤ r ∧ r < (7 : ℚ) / 2)).length),
          ("2_star".toList,
            (ratings.filter (fun r => (3 : ℚ) / 2 ≤ r ∧ r < (5 : ℚ) / 2)).length),
          ("1_star".toList, (ratings.filter (fun r => r < (3 : ℚ) / 2)).length) ]) ]

/-! ## Review extractor (`UniversalScraper.scrape_reviews`, lines 547-591) -/

/-- `ScrapeConfig` (universal_scraper.py lines 22-34), selector strings kept
as opaque data; the `headers`/session plumbing is external. -/
structure ScrapeConfig where
  name : Str
  domain : Str
  review_container : Str
  reviewer_name : Str
  rating : Str
  review_text : Str
  date : Str
  rating_scale : ℤ := 5
  max_reviews : ℤ := 10
deriving DecidableEq

/-- A DOM element as the extraction loop observes it: `get_text(strip=True)`,
`get_text()`, and the two attributes the loop reads
(`get('aria-label', '')`, `get('datetime', '')`; `none` = attribute absent). -/
structure Elem where
  text_strip : Str := []
  text : Str := []
  aria_label : Option Str := none
  datetime_attr : Option Str := none
deriving DecidableEq

/-- A review container, carrying the results of the four `select_one`
sub-queries scoped to it (`none` = no descendant matched the selector). -/
structure Container where
  name_elem : Option Elem := none
  rating_elem : Option Elem := none
  text_elem : Option Elem := none
  date_elem : Option Elem := none
deriving DecidableEq

/-- `reviewer_name` extraction (lines 551-555). -/
def extract_name (container : Container) : Str :=
  match container.name_elem with
  | some e => e.text_strip
  | none => "Anonymous".toList

/-- `rating_text = rating_elem.get('aria-label', '') or rating_elem.get_text()`
(line 561). -/
def rating_text_of (e : Elem) : Str :=
  pyOr (e.aria_label.getD []) e.text

/-- `re.search(r'(\d+(?:\.\d+)?)', s)` followed by `float(...)`: the first
decimal number occurring in `s`, as a rational (lines 562-564). -/
def findFirstNumber : Str → Option ℚ
  | [] => none
  | c :: rest =>
    if c.isDigit then
      let int_part := (c :: rest).takeWhile Char.isDigit
      let after := (c :: rest).dropWhile Char.isDigit
      let frac_part :=
        match after with
        | '.' :: r => r.takeWhile Char.isDigit
        | _ => []
      some ((int_part.foldl (fun a d => a * 10 + (d.toNat - '0'.toNat)) 0 : ℚ) +
        (frac_part.foldl (fun a d => a * 10 + (d.toNat - '0'.toNat)) 0 : ℚ) /
          ((10 : ℚ) ^ frac_part.length))
    else findFirstNumber rest

/-- `rating` extraction (lines 557-564): parse the first number of the rating
text, default `0`. -/
def extract_rating (container : Container) : ℚ :=
  match container.rating_elem with
  | some e =>
    match findFirstNumber (rating_text_of e) with
    | some q => q
    | none => 0
  | none => 0

/-- `review_text` extraction (lines 566-570). -/
def extract_text (container : Container) : Str :=
  match container.text_elem with
  | some e => e.text_strip
  | none => []

/-- `date` extraction (lines 572-576):
`date = date_elem.get_text(strip=True) or date_elem.get('datetime', '')`. -/
def extract_date (container : Container) : Str :=
  match container.date_elem with
  | some e => pyOr e.text_strip (e.datetime_attr.getD [])
  | none => []

/-- One iteration of the container loop (lines 549-591): `none` when the
container is skipped for having neither text nor a rating, otherwise the
`review_data` record. -/
def extract_review (url platform : Str) (config : ScrapeConfig)
    (container : Container) : Option Review :=
  let reviewer_name := extract_name container
  let rating := extract_rating container
  let review_text := extract_text container
  let date := extract_date container
  if review_text = [] ∧ rating = 0 then none
  else
    some { reviewer_name := reviewer_name, rating := rating,
           review_text := review_text, date := date, review_url := url,
           source := platform ++ "_scraping".toList, platform := config.name }

/-- The extraction loop of `UniversalScraper.scrape_reviews` (lines 544-598):
`containers` is `soup.select(config.review_container)`; the loop walks
`review_containers[:config.max_reviews]` and collects the surviving records.
(The per-container `try/except` has no counterpart: the embedded field
extractors are total.) -/
def scrape_reviews (url platform : Str) (config : ScrapeConfig)
    (containers : List Container) : List Review :=
  (pySliceTo containers config.max_reviews).filterMap
    (extract_review url platform config)

/-! ## Heap model of `filter_reviews` for the frame property (claim C10)

`filter_reviews` annotates per-review *copies* (`enhanced_review =
review.copy()`, line 208) and then assigns only to the copy.  To make that
observable, the same loop is re-embedded with an explicit object store: the
input dicts live in a store indexed by references, `review.copy()` allocates
a fresh cell, and all key-assignments hit the fresh cell only. -/

/-- A Python dict holding a review and the optional derived keys added by
`filter_reviews` (absent key = `none`).  `relevance_percentage` is kept as
the underlying rational of the formatted string. -/
structure PyReviewDict where
  base : Review
  sentiment_key : Option Str := none
  categories_key : Option (List Str) := none
  keyword_relevance_key : Option ℚ := none
  relevance_percentage_key : Option ℚ := none
deriving DecidableEq

/-- The object store; a reference is an index into it. -/
abbrev Store : Type := List PyReviewDict

/-- One iteration of the `filter_reviews` loop over a store: reads the dict at
`ref`, and on inclusion allocates one fresh cell holding the enhanced copy
(`review.copy()` plus the key assignments of lines 208-223), appending its
reference to the output.  Cells of the incoming store are never written. -/
def filter_step (filter_config : ReviewFilter) (acc : Store × List ℕ)
    (ref : ℕ) : Store × List ℕ :=
  match acc.1[ref]? with
  | none => acc
  | some d =>
    let review := d.base
    if review.rating < filter_config.min_rating ∨
        review.rating > filter_config.max_rating then acc
    else if pyTruthyOptStr filter_config.sentiment = true ∧
        some (analyze_sentiment review.review_text) ≠ filter_config.sentiment then acc
    else
      let sent := analyze_sentiment review.review_text
      let cats := categorize_review review.review_text
      if filter_config.keywords ≠ [] then
        let relevance := calculate_keyword_relevance review.review_text
          filter_config.keywords
        let enhanced : PyReviewDict :=
          { base := review, sentiment_key := some sent,
            categories_key := some cats, keyword_relevance_key := some relevance,
            relevance_percentage_key := some (relevance * 100) }
        if relevance > (1 : ℚ) / 10 then
          (acc.1 ++ [enhanced], acc.2 ++ [acc.1.length])
        else (acc.1 ++ [enhanced], acc.2)
      else
        let enhanced : PyReviewDict :=
          { base := review, sentiment_key := some sent,
            categories_key := some cats, keyword_relevance_key := some 1,
            relevance_percentage_key := some 100 }
        (acc.1 ++ [enhanced], acc.2 ++ [acc.1.length])

/-- The loop of `filter_reviews` (lines 188-231) over an explicit store:
takes the store and the references of the input reviews, returns the final
store and the references of the enhanced copies.  (Sorting and truncation
permute and drop references; they touch no dict, so the frame claim is
settled at the loop.) -/
def filter_reviews_store (store : Store) (review_refs : List ℕ)
    (filter_config : ReviewFilter) : Store × List ℕ :=
  if review_refs = [] then (store, [])
  else review_refs.foldl (filter_step filter_config) (store, [])

/-! ## Sample values used by concrete witnesses and counterexamples -/

/-- A scraped review with rating 3 and text `"love it"` (no category keyword
occurs in it). -/
def sampleReview : Review :=
  { rating := 3, review_text := "love it".toList }

/-- A filter asking for the `quality` category only. -/
def sampleFilterCat : ReviewFilter :=
  { categories := ["quality".toList] }

/-- A filter with a negative `limit`, reachable through
`create_filter_from_params` (`limit=int(request_args['limit'])`). -/
def sampleFilterNegLimit : ReviewFilter :=
  { limit := -1 }

/-- The registry entry for Costco-style selectors (`_load_site_configs`). -/
def sampleConfig : ScrapeConfig :=
  { name := "Costco".toList, domain := "costco.com".toList,
    review_container := ".review-item".toList,
    reviewer_name := ".review-author".toList, rating := ".review-rating".toList,
    review_text := ".review-text".toList, date := ".review-date".toList }

/-- `sampleConfig` with a negative `max_reviews`. -/
def sampleConfigNeg : ScrapeConfig :=
  { sampleConfig with max_reviews := -1 }

/-- A container whose date element carries both a non-empty trimmed text and a
machine-readable `datetime` attribute. -/
def sampleDateContainer : Container :=
  { text_elem := some { text_strip := "good".toList },
    date_elem := some { text_strip := "Jan 1".toList,
                        datetime_attr := some "2024-01-01".toList } }

/-- A container with review text only. -/
def sampleTextContainer : Container :=
  { text_elem := some { text_strip := "solid desk".toList } }

/-- A one-object store holding `sampleReview`. -/
def sampleStore : Store :=
  [{ base := sampleReview }]

/-- A filter asking for the keyword `love` (which `sampleReview` matches). -/
def sampleFilterKw : ReviewFilter :=
  { keywords := ["love".toList] }

/-- A filter with an unrecognized `sort_by` value. -/
def sampleFilterUnknownSort : ReviewFilter :=
  { sort_by := "oldest".toList }

/-- The date element of `sampleDateContainer`. -/
def sampleDateElem : Elem :=
  { text_strip := "Jan 1".toList, datetime_attr := some "2024-01-01".toList }

/-- The record `extract_review` produces from `sampleDateContainer`. -/
def sampleDateReview : Review :=
  { reviewer_name := "Anonymous".toList, rating := 0,
    review_text := "good".toList, date := "Jan 1".toList, review_url := [],
    source := "_scraping".toList, platform := sampleConfig.name }

/-- The record `extract_review` produces from `sampleTextContainer`. -/
def sampleTextReview : Review :=
  { reviewer_name := "Anonymous".toList, rating := 0,
    review_text := "solid desk".toList, date := [], review_url := [],
    source := "_scraping".toList, platform := sampleConfig.name }

/-- A container none of whose sub-selectors matched. -/
def emptyContainer : Container := {}

/-- The annotated review `filter_reviews` produces from `sampleReview` under
a keywordless filter. -/
def sampleAnnotated : AnnotatedReview :=
  ⟨sampleReview, "positive".toList, [], 1⟩

/-! ## Instances for the descending sort relation -/

instance {α β : Type} [LinearOrder β] (key : α → β) :
    DecidableRel (descRel key) :=
  descDecidable key

instance {α β : Type} [LinearOrder β] (key : α → β) :
    IsTotal α (descRel key) :=
  ⟨fun a b => le_total (key b) (key a)⟩

instance {α β : Type} [LinearOrder β] (key : α → β) :
    IsTrans α (descRel key) :=
  ⟨fun _ _ _ hab hbc => le_trans hbc hab⟩

/-! ## General lemmas about the Python-modelling primitives -/

/-- `pySliceTo` is a `take`. -/
theorem pySliceTo_eq_take (l : List α) (n : ℤ) :
    ∃ m, pySliceTo l n = l.take m := by
  unfold pySliceTo
  split
  · exact ⟨n.toNat, rfl⟩
  · exact ⟨l.length - (-n).toNat, rfl⟩

/-- For a non-negative stop, slicing yields at most `n` elements. -/
theorem length_pySliceTo_le {n : ℤ} (l : List α) (h : 0 ≤ n) :
    ((pySliceTo l n).length : ℤ) ≤ n := by
  simp only [pySliceTo, if_pos h, List.length_take]
  omega

/-- Slicing only keeps elements of the list. -/
theorem mem_pySliceTo {a : α} {l : List α} {n : ℤ} (h : a ∈ pySliceTo l n) :
    a ∈ l := by
  obtain ⟨m, hm⟩ := pySliceTo_eq_take l n
  exact (List.take_sublist m l).subset (hm ▸ h)

/-- The sort produced by `pySortedByDesc` is pairwise descending in the key. -/
theorem pairwise_pySortedByDesc {α β : Type} [LinearOrder β] (key : α → β)
    (l : List α) : (pySortedByDesc key l).Pairwise (descRel key) :=
  List.sorted_insertionSort (descRel key) l

/-- `pySortedByDesc` permutes its input. -/
theorem perm_pySortedByDesc {α β : Type} [LinearOrder β] (key : α → β)
    (l : List α) : List.Perm (pySortedByDesc key l) l :=
  List.perm_insertionSort (descRel key) l

/-- Inserting `a` commutes with filtering the elements of one key value:
`a` lands in front of the equal-key elements (stability of the insertion). -/
theorem filter_orderedInsert_desc {α β : Type} [LinearOrder β] [DecidableEq β]
    (key : α → β) (k : β) (a : α) (l : List α) :
    (@List.orderedInsert α (descRel key) (descDecidable key) a l).filter
        (fun x => decide (key x = k)) =
      if key a = k then a :: l.filter (fun x => decide (key x = k))
      else l.filter (fun x => decide (key x = k)) := by
  induction l with
  | nil =>
    by_cases hk : key a = k <;> simp [List.orderedInsert, hk]
  | cons b l ih =>
    show (if descRel key a b then _ else _ : List α).filter _ = _
    by_cases hab : descRel key a b
    · rw [if_pos hab]
      by_cases hak : key a = k <;> by_cases hbk : key b = k <;>
        simp [List.filter_cons, hak, hbk]
    · rw [if_neg hab]
      have hlt : key a < key b := lt_of_not_le hab
      by_cases hbk : key b = k
      · have hak : key a ≠ k := by
          rintro rfl
          exact absurd (hbk ▸ hlt) (lt_irrefl _)
        simp [List.filter_cons, hbk, hak, ih]
      · by_cases hak : key a = k <;> simp [List.filter_cons, hbk, hak, ih]

/-- Stability of `pySortedByDesc`: the sublist of elements sharing any one key
value is untouched by the sort. -/
theorem filter_pySortedByDesc {α β : Type} [LinearOrder β] [DecidableEq β]
    (key : α → β) (k : β) (l : List α) :
    (pySortedByDesc key l).filter (fun x => decide (key x = k)) =
      l.filter (fun x => decide (key x = k)) := by
  induction l with
  | nil => rfl
  | cons b l ih =>
    show (@List.orderedInsert α (descRel key) (descDecidable key) b
        (pySortedByDesc key l)).filter _ = _
    rw [filter_orderedInsert_desc, ih, List.filter_cons]
    by_cases hbk : key b = k <;> simp [hbk]

/-- Filtering a prefix of `l` yields a prefix of the filtered list. -/
theorem filter_take_append (p : α → Bool) (l : List α) (m : ℕ) :
    ∃ t, l.filter p = (l.take m).filter p ++ t :=
  ⟨(l.drop m).filter p, by rw [← List.filter_append, List.take_append_drop]⟩
/-! ## Lemmas about the filter loop body -/

/-- An enhanced review produced by the loop body wraps exactly the incoming
review. -/
theorem process_review_base {filter_config : ReviewFilter} {review : Review}
    {a : AnnotatedReview} (h : process_review filter_config review = some a) :
    a.base = review := by
  unfold process_review at h
  split_ifs at h <;> simp_all
  · rw [← h.2]
  · rw [← h]

/-- A review surviving the loop body satisfies both rating bounds. -/
theorem process_review_rating {filter_config : ReviewFilter} {review : Review}
    {a : AnnotatedReview} (h : process_review filter_config review = some a) :
    filter_config.min_rating ≤ review.rating ∧
      review.rating ≤ filter_config.max_rating := by
  unfold process_review at h
  split_ifs at h with h1 <;> simp_all

/-- Each keyword contributes a non-negative amount to `total_matches`:
`2·exact + (count − exact) = exact + count ≥ 0`. -/
theorem keyword_match_score_nonneg (text_lower kw : Str) :
    0 ≤ keyword_match_score text_lower kw := by
  unfold keyword_match_score
  dsimp only
  omega

/-- `total_matches` is non-negative. -/
theorem total_matches_nonneg (text_lower : Str) (keywords : List Str) :
    0 ≤ total_matches text_lower keywords := by
  unfold total_matches
  induction keywords with
  | nil => simp
  | cons kw kws ih =>
    rw [List.map_cons, List.sum_cons]
    have := keyword_match_score_nonneg text_lower kw
    omega

/-- One loop iteration of the store-level filter leaves the store either
unchanged or extended by the one freshly allocated cell. -/
theorem filter_step_store_cases (filter_config : ReviewFilter)
    (acc : Store × List ℕ) (ref : ℕ) :
    (filter_step filter_config acc ref).1 = acc.1 ∨
      ∃ d, (filter_step filter_config acc ref).1 = acc.1 ++ [d] := by
  unfold filter_step
  cases acc.1[ref]? with
  | none => exact Or.inl rfl
  | some d =>
    dsimp only
    split_ifs <;> first | exact Or.inl rfl | exact Or.inr ⟨_, rfl⟩

/-- One loop iteration never writes an existing cell and never shrinks the
store. -/
theorem filter_step_frame (filter_config : ReviewFilter) (acc : Store × List ℕ)
    (ref : ℕ) :
    (∀ i, i < acc.1.length →
        (filter_step filter_config acc ref).1[i]? = acc.1[i]?) ∧
      acc.1.length ≤ (filter_step filter_config acc ref).1.length := by
  rcases filter_step_store_cases filter_config acc ref with h | ⟨d, h⟩
  · rw [h]
    exact ⟨fun _ _ => rfl, le_refl _⟩
  · rw [h]
    refine ⟨fun i hi => List.getElem?_append_left hi, ?_⟩
    simp [List.length_append]

/-- The whole store-level loop preserves every cell of the incoming store. -/
theorem filter_fold_frame (filter_config : ReviewFilter) (refs : List ℕ) :
    ∀ acc : Store × List ℕ, ∀ i, i < acc.1.length →
      (refs.foldl (filter_step filter_config) acc).1[i]? = acc.1[i]? := by
  induction refs with
  | nil => intro acc i _; rfl
  | cons ref refs ih =>
    intro acc i hi
    rw [List.foldl_cons]
    obtain ⟨hget, hlen⟩ := filter_step_frame filter_config acc ref
    rw [ih (filter_step filter_config acc ref) i (lt_of_lt_of_le hi hlen)]
    exact hget i hi

/-- Sorting never adds or removes reviews, whatever the `sort_by` value. -/
theorem mem_sort_reviews {a : AnnotatedReview} {l : List AnnotatedReview}
    {sort_by : Str} : a ∈ sort_reviews l sort_by ↔ a ∈ l := by
  unfold sort_reviews
  split_ifs <;> first
    | exact (perm_pySortedByDesc _ _).mem_iff
    | exact Iff.rfl

/-- On a review that passes the rating and sentiment gates, the loop body
reduces to the keyword-relevance decision. -/
theorem process_review_pass {filter_config : ReviewFilter} {review : Review}
    (hr1 : filter_config.min_rating ≤ review.rating)
    (hr2 : review.rating ≤ filter_config.max_rating)
    (hs : pyTruthyOptStr filter_config.sentiment = true →
      filter_config.sentiment = some (analyze_sentiment review.review_text)) :
    process_review filter_config review =
      (if filter_config.keywords ≠ [] then
        (if calculate_keyword_relevance review.review_text filter_config.keywords >
            (1 : ℚ) / 10 then
          some ⟨review, analyze_sentiment review.review_text,
            categorize_review review.review_text,
            calculate_keyword_relevance review.review_text filter_config.keywords⟩
        else none)
      else some ⟨review, analyze_sentiment review.review_text,
        categorize_review review.review_text, 1⟩) := by
  have h1 : ¬(review.rating < filter_config.min_rating ∨
      review.rating > filter_config.max_rating) := by
    push_neg
    exact ⟨hr1, hr2⟩
  have h2 : ¬(pyTruthyOptStr filter_config.sentiment = true ∧
      some (analyze_sentiment review.review_text) ≠ filter_config.sentiment) := by
    rintro ⟨ht, hne⟩
    exact hne (hs ht).symm
  unfold process_review
  rw [if_neg h1, if_neg h2]

/-! ## Claims -/

/-- C1: the category filter of `filter_reviews` never drops anything: the
`continue` at line 231 runs only after the review has already been appended,
so `sampleReview` — whose derived category set is empty — survives a filter
that asks for the `quality` category.  The claim says it is dropped; the code
keeps it. -/
theorem C1_category_filter_noop :
    (filter_reviews [sampleReview] sampleFilterCat).length = 1 ∧
      ∀ a ∈ filter_reviews [sampleReview] sampleFilterCat,
        ∀ c ∈ a.categories, c ∉ sampleFilterCat.categories := by
  decide

/-- C2 counterexample: for the empty input, `get_review_insights` returns the
empty dict, which has no `total_reviews` entry at all — so it does not return
an Insights value with a zero total-review count. -/
theorem C2_counterexample :
    List.lookup "total_reviews".toList (get_review_insights []) = none := by
  decide

/-- C2 (amended): for the empty input collection, `get_review_insights`
returns the empty mapping — no error, but also none of the summary keys. -/
theorem C2_empty_insights : get_review_insights [] = [] := rfl

/-- C3 counterexample: on a container whose date element has both non-empty
trimmed text (`"Jan 1"`) and a machine-readable `datetime` attribute
(`"2024-01-01"`), the extracted date is the trimmed text, not the attribute
the claim says is preferred. -/
theorem C3_counterexample :
    (extract_review [] [] sampleConfig sampleDateContainer).map
        (fun r => r.date) = some "Jan 1".toList ∧
      "Jan 1".toList ≠ "2024-01-01".toList := by
  decide

/-- C3 (amended): when the date element is present, the extracted record's
date is the element's trimmed text when that text is non-empty, and the
`datetime` attribute (or `''` when absent) only when the trimmed text is
empty — the opposite preference to the one claimed. -/
theorem C3_date_preference :
    ∀ (url platform : Str) (config : ScrapeConfig) (c : Container) (e : Elem)
      (r : Review), c.date_elem = some e →
      extract_review url platform config c = some r →
      (e.text_strip ≠ [] → r.date = e.text_strip) ∧
        (e.text_strip = [] → r.date = e.datetime_attr.getD []) := by
  intro url platform config c e r hdate hext
  unfold extract_review at hext
  dsimp only at hext
  split_ifs at hext
  rw [Option.some_inj] at hext
  have hr : r.date = extract_date c := by rw [← hext]
  rw [hr]
  unfold extract_date
  rw [hdate]
  unfold pyOr
  constructor
  · intro hne
    simp [hne]
  · intro he
    simp [he]

/-- C3 witness: the amended preference evaluated on `sampleDateContainer`. -/
theorem C3_date_preference_witness :
    (sampleDateContainer.date_elem = some sampleDateElem ∧
        extract_review [] [] sampleConfig sampleDateContainer =
          some sampleDateReview) ∧
      ((sampleDateElem.text_strip ≠ [] →
          sampleDateReview.date = sampleDateElem.text_strip) ∧
        (sampleDateElem.text_strip = [] →
          sampleDateReview.date = sampleDateElem.datetime_attr.getD [])) :=
  ⟨⟨by decide, by decide⟩,
    C3_date_preference [] [] sampleConfig sampleDateContainer sampleDateElem
      sampleDateReview (by decide) (by decide)⟩

/-- C5 counterexample: with a negative `max_reviews` (a legal `int` per the
data model), the slice `review_containers[:max_reviews]` keeps all but the
last container, so the output length exceeds `max_reviews`. -/
theorem C5_counterexample :
    ¬ (((scrape_reviews [] [] sampleConfigNeg
          [sampleTextContainer, sampleTextContainer]).length : ℤ) ≤
        sampleConfigNeg.max_reviews) := by
  decide

/-- C5 (amended): when `config.max_reviews` is non-negative, `scrape_reviews`
returns at most that many records; unconditionally, every returned record has
non-empty text or a non-zero rating, and a container with empty extracted
text and zero rating is discarded. -/
theorem C5_extract_bounds :
    ∀ (url platform : Str) (config : ScrapeConfig)
      (containers : List Container),
      (0 ≤ config.max_reviews →
        ((scrape_reviews url platform config containers).length : ℤ) ≤
          config.max_reviews) ∧
      (∀ r ∈ scrape_reviews url platform config containers,
        r.review_text ≠ [] ∨ r.rating ≠ 0) ∧
      (∀ c ∈ containers, extract_text c = [] → extract_rating c = 0 →
        extract_review url platform config c = none) := by
  intro url platform config containers
  refine ⟨fun hmax => ?_, fun r hr => ?_, fun c _ ht hrat => ?_⟩
  · calc ((scrape_reviews url platform config containers).length : ℤ)
        ≤ ((pySliceTo containers config.max_reviews).length : ℤ) := by
          exact_mod_cast List.length_filterMap_le _ _
      _ ≤ config.max_reviews := length_pySliceTo_le _ hmax
  · obtain ⟨c, _, hc⟩ := List.mem_filterMap.mp hr
    unfold extract_review at hc
    dsimp only at hc
    split_ifs at hc with hguard
    rw [Option.some_inj] at hc
    rw [← hc]
    exact not_and_or.mp hguard
  · unfold extract_review
    dsimp only
    rw [if_pos ⟨ht, hrat⟩]

/-- C5 witness: the amended bound and the discard rule evaluated on a
two-container page under the Costco registry entry. -/
theorem C5_extract_bounds_witness :
    ((0 : ℤ) ≤ sampleConfig.max_reviews ∧
        emptyContainer ∈ [sampleTextContainer, emptyContainer] ∧
        sampleTextReview ∈
          scrape_reviews [] [] sampleConfig [sampleTextContainer, emptyContainer]) ∧
      (((scrape_reviews [] [] sampleConfig
            [sampleTextContainer, emptyContainer]).length : ℤ) ≤
          sampleConfig.max_reviews) ∧
      (sampleTextReview.review_text ≠ [] ∨ sampleTextReview.rating ≠ 0) ∧
      extract_review [] [] sampleConfig emptyContainer = none :=
  ⟨⟨by decide, by decide, by decide⟩,
    (C5_extract_bounds [] [] sampleConfig [sampleTextContainer, emptyContainer]).1
      (by decide),
    (C5_extract_bounds [] [] sampleConfig [sampleTextContainer, emptyContainer]).2.1
      sampleTextReview (by decide),
    (C5_extract_bounds [] [] sampleConfig [sampleTextContainer, emptyContainer]).2.2
      emptyContainer (by decide) (by decide) (by decide)⟩

/-- C6 counterexample: for the whitespace-only (but non-empty) text `" "` and
the keyword list `[" "]`, the code returns `0` (the `text_length == 0` guard
fires, since `" ".split()` is empty) while the claimed formula gives
`min(1 / 2, 1) = 1/2`. -/
theorem C6_counterexample :
    calculate_keyword_relevance " ".toList [" ".toList] = 0 ∧
      min ((total_matches (" ".toList.map Char.toLower) [" ".toList] : ℚ) /
          (2 * ([" ".toList] : List Str).length)) 1 = 1 / 2 ∧
      " ".toList ≠ ([] : Str) := by
  refine ⟨by decide, ?_, by decide⟩
  have h : total_matches (" ".toList.map Char.toLower) [" ".toList] = 1 := by
    decide
  rw [h]
  norm_num

/-- C6 (amended): the zero cases — empty text, empty keywords, and (the
clause the code's `text_length == 0` guard adds) entirely-whitespace text
(`text.split()` empty), each universally; the normalized score
`min(total_matches / (2·len(keywords)), 1)` for non-empty text and keywords
whose text contains a non-whitespace character; and the `[0, 1]` range,
which holds unconditionally. -/
theorem C6_relevance_formula :
    ∀ (text : Str) (keywords : List Str),
      ((text = [] ∨ keywords = []) →
        calculate_keyword_relevance text keywords = 0) ∧
      (pySplit text = [] →
        calculate_keyword_relevance text keywords = 0) ∧
      (text ≠ [] → keywords ≠ [] → pySplit text ≠ [] →
        calculate_keyword_relevance text keywords =
          min ((total_matches (text.map Char.toLower) keywords : ℚ) /
            (2 * keywords.length)) 1) ∧
      (0 ≤ calculate_keyword_relevance text keywords ∧
        calculate_keyword_relevance text keywords ≤ 1) := by
  intro text keywords
  refine ⟨fun h0 => ?_, fun hws => ?_, fun h1 h2 h3 => ?_, ?_⟩
  · unfold calculate_keyword_relevance
    rw [if_pos h0]
  · unfold calculate_keyword_relevance
    dsimp only
    split_ifs with h0 h1
    · rfl
    · rfl
    · exact absurd (Or.inl (by rw [hws]; rfl)) h1
  · unfold calculate_keyword_relevance
    rw [if_neg (not_or_intro h1 h2)]
    dsimp only
    rw [if_neg]
    · have hcast : ((keywords.length * 2 : ℕ) : ℚ) = 2 * keywords.length := by
        push_cast
        ring
      rw [hcast]
    · rintro (hlen | hmul)
      · exact h3 (List.length_eq_zero.mp hlen)
      · exact h2 (List.length_eq_zero.mp (by omega))
  · unfold calculate_keyword_relevance
    dsimp only
    split_ifs with h0 h1
    · exact ⟨le_refl 0, zero_le_one⟩
    · exact ⟨le_refl 0, zero_le_one⟩
    · constructor
      · refine le_min ?_ zero_le_one
        apply div_nonneg
        · exact_mod_cast total_matches_nonneg _ _
        · positivity
      · exact min_le_right _ _

/-- C6 witness: the amended formula evaluated on `"great product"` with the
keyword `"great"`, and the whitespace-only clause on the text `" "` with the
keyword `"great"`. -/
theorem C6_relevance_formula_witness :
    ("great product".toList ≠ ([] : Str) ∧
        (["great".toList] : List Str) ≠ [] ∧
        pySplit "great product".toList ≠ [] ∧
        pySplit " ".toList = []) ∧
      calculate_keyword_relevance "great product".toList ["great".toList] =
        min ((total_matches ("great product".toList.map Char.toLower)
            ["great".toList] : ℚ) /
          (2 * (["great".toList] : List Str).length)) 1 ∧
      calculate_keyword_relevance " ".toList ["great".toList] = 0 :=
  ⟨⟨by decide, by decide, by decide, by decide⟩,
    (C6_relevance_formula "great product".toList ["great".toList]).2.2.1
      (by decide) (by decide) (by decide),
    (C6_relevance_formula " ".toList ["great".toList]).2.1 (by decide)⟩

/-- C9 counterexample: with the reachable negative `limit = -1`
(`int(request_args['limit'])`), the output has length 0, which is not
`≤ -1`. -/
theorem C9_counterexample :
    ¬ (((filter_reviews [sampleReview] sampleFilterNegLimit).length : ℤ) ≤
        sampleFilterNegLimit.limit) := by
  decide

/-- C9 (amended): when `limit` is non-negative the output of
`filter_reviews` has at most `limit` entries; unconditionally, every returned
review's rating lies within `[min_rating, max_rating]`. -/
theorem C9_limit_and_rating_bounds :
    ∀ (reviews : List Review) (filter_config : ReviewFilter),
      (0 ≤ filter_config.limit →
        ((filter_reviews reviews filter_config).length : ℤ) ≤
          filter_config.limit) ∧
      ∀ a ∈ filter_reviews reviews filter_config,
        filter_config.min_rating ≤ a.base.rating ∧
          a.base.rating ≤ filter_config.max_rating := by
  intro reviews filter_config
  unfold filter_reviews
  split_ifs with hrev
  · exact ⟨fun hlim => by simpa using hlim, fun a ha => absurd ha (by simp)⟩
  · constructor
    · exact fun hlim => length_pySliceTo_le _ hlim
    · intro a ha
      have hsorted := mem_pySliceTo ha
      have hpass : a ∈ filter_pass filter_config reviews :=
        mem_sort_reviews.mp hsorted
      obtain ⟨review, _, hproc⟩ := List.mem_filterMap.mp hpass
      have hbase := process_review_base hproc
      have hbounds := process_review_rating hproc
      rw [hbase]
      exact hbounds

/-- C9 witness: the amended bounds evaluated on `sampleReview` under the
category filter (default `limit = 50`), with the single surviving annotated
review. -/
theorem C9_limit_and_rating_bounds_witness :
    ((0 : ℤ) ≤ sampleFilterCat.limit ∧
        sampleAnnotated ∈ filter_reviews [sampleReview] sampleFilterCat) ∧
      (((filter_reviews [sampleReview] sampleFilterCat).length : ℤ) ≤
          sampleFilterCat.limit) ∧
      (sampleFilterCat.min_rating ≤ sampleAnnotated.base.rating ∧
        sampleAnnotated.base.rating ≤ sampleFilterCat.max_rating) :=
  ⟨⟨by decide, by decide⟩,
    (C9_limit_and_rating_bounds [sampleReview] sampleFilterCat).1 (by decide),
    (C9_limit_and_rating_bounds [sampleReview] sampleFilterCat).2
      sampleAnnotated (by decide)⟩

/-- C4 (confirmed): for a review of the input collection that passes the
rating and sentiment gates, with a non-empty keyword list the review
contributes to the pre-sort result (`filter_pass`) exactly when its computed
relevance exceeds `0.1`; with an empty keyword list it always contributes,
annotated with relevance `1`. -/
theorem C4_keyword_threshold :
    ∀ (filter_config : ReviewFilter) (reviews : List Review) (review : Review),
      review ∈ reviews →
      filter_config.min_rating ≤ review.rating →
      review.rating ≤ filter_config.max_rating →
      (pyTruthyOptStr filter_config.sentiment = true →
        filter_config.sentiment = some (analyze_sentiment review.review_text)) →
      ((filter_config.keywords ≠ [] →
        ((∃ a ∈ filter_pass filter_config reviews, a.base = review) ↔
          calculate_keyword_relevance review.review_text filter_config.keywords >
            (1 : ℚ) / 10)) ∧
      (filter_config.keywords = [] →
        ∃ a ∈ filter_pass filter_config reviews,
          a.base = review ∧ a.keyword_relevance = 1)) := by
  intro filter_config reviews review hmem hr1 hr2 hs
  have heval := process_review_pass hr1 hr2 hs
  constructor
  · intro hkw
    rw [if_pos hkw] at heval
    constructor
    · rintro ⟨a, hain, hbase⟩
      obtain ⟨review2, _, hproc⟩ := List.mem_filterMap.mp hain
      have : review2 = review := by
        rw [← process_review_base hproc, hbase]
      rw [this] at hproc
      rw [heval] at hproc
      by_contra hrel
      rw [if_neg hrel] at hproc
      exact Option.noConfusion hproc
    · intro hrel
      rw [if_pos hrel] at heval
      refine ⟨_, List.mem_filterMap.mpr ⟨review, hmem, heval⟩, rfl⟩
  · intro hkw
    rw [if_neg (by simp [hkw])] at heval
    exact ⟨_, List.mem_filterMap.mpr ⟨review, hmem, heval⟩, rfl, rfl⟩

/-- C4 witness: `sampleReview` (`"love it"`, rating 3) under the keyword
filter `["love"]`: its relevance is `1 > 0.1` and it is in the pre-sort
result. -/
theorem C4_keyword_threshold_witness :
    (sampleReview ∈ [sampleReview] ∧ sampleFilterKw.keywords ≠ []) ∧
      ((∃ a ∈ filter_pass sampleFilterKw [sampleReview], a.base = sampleReview) ↔
        calculate_keyword_relevance sampleReview.review_text
            sampleFilterKw.keywords > (1 : ℚ) / 10) :=
  ⟨⟨by decide, by decide⟩,
    (C4_keyword_threshold sampleFilterKw [sampleReview] sampleReview (by decide)
        (by decide) (by decide) (by decide)).1 (by decide)⟩

/-- C7 (confirmed): `analyze_sentiment` depends only on the lowercased text
(case-insensitivity), returns `positive`/`negative` exactly when the
corresponding distinct-word lexicon intersection is strictly larger, and
`neutral` on ties — including the empty intersections of empty text. -/
theorem C7_sentiment_cases :
    ∀ t t' : Str,
      (t.map Char.toLower = t'.map Char.toLower →
        analyze_sentiment t = analyze_sentiment t') ∧
      (positive_count t > negative_count t →
        analyze_sentiment t = "positive".toList) ∧
      (negative_count t > positive_count t →
        analyze_sentiment t = "negative".toList) ∧
      (positive_count t = negative_count t →
        analyze_sentiment t = "neutral".toList) := by
  intro t t'
  refine ⟨fun hlow => ?_, fun hgt => ?_, fun hgt => ?_, fun heq => ?_⟩
  · have hw : sentimentWords t = sentimentWords t' := by
      unfold sentimentWords
      rw [hlow]
    have hp : positive_count t = positive_count t' := by
      unfold positive_count
      rw [hw]
    have hn : negative_count t = negative_count t' := by
      unfold negative_count
      rw [hw]
    have hlen : t.length = t'.length := by
      have := congrArg List.length hlow
      simpa using this
    unfold analyze_sentiment
    by_cases ht : t = []
    · have ht' : t' = [] := by
        rw [← List.length_eq_zero, ← hlen, ht]
        rfl
      rw [if_pos ht, if_pos ht']
    · have ht' : t' ≠ [] := by
        intro h0
        rw [← List.length_eq_zero, hlen, h0] at ht
        exact ht rfl
      rw [if_neg ht, if_neg ht', hp, hn]
  · unfold analyze_sentiment
    split_ifs with h0 <;>
      first
        | rfl
        | omega
        | exact absurd hgt (by subst h0; decide)
  · unfold analyze_sentiment
    split_ifs with h0 h1 <;>
      first
        | rfl
        | omega
        | exact absurd hgt (by subst h0; decide)
  · unfold analyze_sentiment
    split_ifs with h0 h1 h2 <;>
      first
        | rfl
        | omega

/-- C7 witness: case-invariance on `"Great"`/`"gREAT"` and the three verdicts
on concrete texts. -/
theorem C7_sentiment_cases_witness :
    ("Great".toList.map Char.toLower = "gREAT".toList.map Char.toLower ∧
        positive_count "love it".toList > negative_count "love it".toList ∧
        negative_count "broken waste".toList >
          positive_count "broken waste".toList ∧
        positive_count "ok fine".toList = negative_count "ok fine".toList) ∧
      analyze_sentiment "Great".toList = analyze_sentiment "gREAT".toList ∧
      analyze_sentiment "love it".toList = "positive".toList ∧
      analyze_sentiment "broken waste".toList = "negative".toList ∧
      analyze_sentiment "ok fine".toList = "neutral".toList :=
  ⟨⟨by decide, by decide, by decide, by decide⟩,
    (C7_sentiment_cases "Great".toList "gREAT".toList).1 (by decide),
    (C7_sentiment_cases "love it".toList []).2.1 (by decide),
    (C7_sentiment_cases "broken waste".toList []).2.2.1 (by decide),
    (C7_sentiment_cases "ok fine".toList []).2.2.2 (by decide)⟩

/-- C10 (confirmed, over the store model): `filter_reviews` never mutates an
input review dict — every cell of the incoming store is unchanged after the
call, since annotations go to freshly allocated copies
(`enhanced_review = review.copy()`). -/
theorem C10_no_input_mutation :
    ∀ (store : Store) (review_refs : List ℕ) (filter_config : ReviewFilter)
      (i : ℕ), i < store.length →
      (filter_reviews_store store review_refs filter_config).1[i]? =
        store[i]? := by
  intro store review_refs filter_config i hi
  unfold filter_reviews_store
  split
  · rfl
  · exact filter_fold_frame filter_config review_refs (store, []) i hi

/-- C10 witness: a one-dict store run through the keyword filter. -/
theorem C10_no_input_mutation_witness :
    0 < sampleStore.length ∧
      (filter_reviews_store sampleStore [0] sampleFilterKw).1[0]? =
        sampleStore[0]? :=
  ⟨by decide, C10_no_input_mutation sampleStore [0] sampleFilterKw 0 (by decide)⟩

/-- Slicing a stable descending sort: the result is pairwise descending in the
key, and the elements of any one key value form a prefix of that key value's
elements of the unsorted list (stability + truncation). -/
theorem sorted_stable_slice {α β : Type} [LinearOrder β] [DecidableEq β]
    (key : α → β) (l : List α) (n : ℤ) :
    (pySliceTo (pySortedByDesc key l) n).Pairwise (descRel key) ∧
      ∀ k : β, ∃ t, l.filter (fun x => decide (key x = k)) =
        (pySliceTo (pySortedByDesc key l) n).filter
          (fun x => decide (key x = k)) ++ t := by
  obtain ⟨m, hm⟩ := pySliceTo_eq_take (pySortedByDesc key l) n
  constructor
  · rw [hm]
    exact (pairwise_pySortedByDesc key l).sublist (List.take_sublist m _)
  · intro k
    obtain ⟨t, ht⟩ :=
      filter_take_append (fun x => decide (key x = k)) (pySortedByDesc key l) m
    refine ⟨t, ?_⟩
    rw [hm, ← filter_pySortedByDesc key k l, ht]

/-- C8 (confirmed): the output of `filter_reviews` is sorted in descending
order of the key selected by `sort_by` (`relevance` / `rating` / `date` /
`length`); ties keep the relative order the reviews had in the pre-sort
result (the sort is stable, stated per key value); and an unrecognized
`sort_by` leaves the surviving reviews in input order (then truncates). -/
theorem C8_sort_order_and_stability :
    ∀ (reviews : List Review) (filter_config : ReviewFilter),
      (filter_config.sort_by = "relevance".toList →
        (filter_reviews reviews filter_config).Pairwise (descRel keyRelevance) ∧
        ∀ k : ℚ, ∃ t,
          (filter_pass filter_config reviews).filter
              (fun x => decide (keyRelevance x = k)) =
            (filter_reviews reviews filter_config).filter
              (fun x => decide (keyRelevance x = k)) ++ t) ∧
      (filter_config.sort_by = "rating".toList →
        (filter_reviews reviews filter_config).Pairwise (descRel keyRating) ∧
        ∀ k : ℚ, ∃ t,
          (filter_pass filter_config reviews).filter
              (fun x => decide (keyRating x = k)) =
            (filter_reviews reviews filter_config).filter
              (fun x => decide (keyRating x = k)) ++ t) ∧
      (filter_config.sort_by = "date".toList →
        (filter_reviews reviews filter_config).Pairwise (descRel keyDate) ∧
        ∀ k : Str, ∃ t,
          (filter_pass filter_config reviews).filter
              (fun x => decide (keyDate x = k)) =
            (filter_reviews reviews filter_config).filter
              (fun x => decide (keyDate x = k)) ++ t) ∧
      (filter_config.sort_by = "length".toList →
        (filter_reviews reviews filter_config).Pairwise (descRel keyLength) ∧
        ∀ k : ℕ, ∃ t,
          (filter_pass filter_config reviews).filter
              (fun x => decide (keyLength x = k)) =
            (filter_reviews reviews filter_config).filter
              (fun x => decide (keyLength x = k)) ++ t) ∧
      (filter_config.sort_by ∉
          (["relevance", "rating", "date", "length"].map String.toList) →
        filter_reviews reviews filter_config =
          pySliceTo (filter_pass filter_config reviews) filter_config.limit) := by
  intro reviews filter_config
  by_cases hrev : reviews = []
  · subst hrev
    have hout : filter_reviews [] filter_config = [] := by
      unfold filter_reviews
      rw [if_pos rfl]
    have hpass : filter_pass filter_config [] = [] := rfl
    refine ⟨?_, ?_, ?_, ?_, ?_⟩ <;>
      first
        | exact fun _ => ⟨hout ▸ List.Pairwise.nil,
            fun k => ⟨[], by rw [hout, hpass]; rfl⟩⟩
        | exact fun _ => by
            rw [hout, hpass]
            unfold pySliceTo
            split <;> simp
  · have hbody : filter_reviews reviews filter_config =
        pySliceTo (sort_reviews (filter_pass filter_config reviews)
          filter_config.sort_by) filter_config.limit := by
      unfold filter_reviews
      rw [if_neg hrev]
    refine ⟨fun hsb => ?_, fun hsb => ?_, fun hsb => ?_, fun hsb => ?_,
      fun hsb => ?_⟩
    · rw [hbody, hsb]
      show (pySliceTo (if _ = _ then _ else _) _).Pairwise _ ∧ _
      rw [if_pos rfl]
      exact sorted_stable_slice keyRelevance _ _
    · rw [hbody, hsb]
      show (pySliceTo (if _ = _ then _ else _) _).Pairwise _ ∧ _
      rw [if_neg (by decide), if_pos rfl]
      exact sorted_stable_slice keyRating _ _
    · rw [hbody, hsb]
      show (pySliceTo (if _ = _ then _ else _) _).Pairwise _ ∧ _
      rw [if_neg (by decide), if_neg (by decide), if_pos rfl]
      exact sorted_stable_slice keyDate _ _
    · rw [hbody, hsb]
      show (pySliceTo (if _ = _ then _ else _) _).Pairwise _ ∧ _
      rw [if_neg (by decide), if_neg (by decide), if_neg (by decide),
        if_pos rfl]
      exact sorted_stable_slice keyLength _ _
    · have h1 : filter_config.sort_by ≠ "relevance".toList := fun h =>
        hsb (by rw [h]; decide)
      have h2 : filter_config.sort_by ≠ "rating".toList := fun h =>
        hsb (by rw [h]; decide)
      have h3 : filter_config.sort_by ≠ "date".toList := fun h =>
        hsb (by rw [h]; decide)
      have h4 : filter_config.sort_by ≠ "length".toList := fun h =>
        hsb (by rw [h]; decide)
      rw [hbody]
      unfold sort_reviews
      rw [if_neg h1, if_neg h2, if_neg h3, if_neg h4]

/-- C8 witness: descending order and stability on a concrete run with
`sort_by = 'relevance'`, and input-order preservation under the unknown
`sort_by = 'oldest'`. -/
theorem C8_sort_order_and_stability_witness :
    (sampleFilterKw.sort_by = "relevance".toList ∧
        sampleFilterUnknownSort.sort_by ∉
          (["relevance", "rating", "date", "length"].map String.toList)) ∧
      (filter_reviews [sampleReview] sampleFilterKw).Pairwise
        (descRel keyRelevance) ∧
      (∃ t, (filter_pass sampleFilterKw [sampleReview]).filter
          (fun x => decide (keyRelevance x = 1)) =
        (filter_reviews [sampleReview] sampleFilterKw).filter
          (fun x => decide (keyRelevance x = 1)) ++ t) ∧
      filter_reviews [sampleReview] sampleFilterUnknownSort =
        pySliceTo (filter_pass sampleFilterUnknownSort [sampleReview])
          sampleFilterUnknownSort.limit :=
  ⟨⟨by decide, by decide⟩,
    ((C8_sort_order_and_stability [sampleReview] sampleFilterKw).1
      (by decide)).1,
    ((C8_sort_order_and_stability [sampleReview] sampleFilterKw).1
      (by decide)).2 1,
    (C8_sort_order_and_stability [sampleReview] sampleFilterUnknownSort).2.2.2.2
      (by decide)⟩
